import Mathlib

set_option maxHeartbeats 1000000

/-!
Shallow embedding of ve-shader (`src/main.rs`): the multi-stage source
splitter (`parse`), its flush-to-compile orchestration (`compile_shader`),
and the diagnostic line-number translation performed in `compile_shader`'s
error path.  Machine strings are Lean `String`s; the Rust string operations
(`contains`, `split(' ')`, `starts_with`, `is_empty`) are modelled by
executable helpers over the underlying character lists.  The external
shaderc backend is abstracted as a function from a flushed logical unit to
an optional failure message, matching the `compile(...) -> binary |
diagnostic` contract; everything else follows the source line by line.
-/

/-- Shader stages producible by `parse_shader_kind` (src/main.rs:356-366).
The shaderc enum has more variants, but the splitter only ever constructs
these three. -/
inductive ShaderKind : Type
  | Vertex
  | Fragment
  | Geometry
deriving DecidableEq, Repr

/-- Converts a string token to a shader kind; mirrors `parse_shader_kind`
(src/main.rs:356-366): exact match on the three recognized keywords. -/
def parse_shader_kind (identifier : String) : Option ShaderKind :=
  if identifier = "VERTEX" then some ShaderKind.Vertex
  else if identifier = "FRAGMENT" then some ShaderKind.Fragment
  else if identifier = "GEOMETRY" then some ShaderKind.Geometry
  else none

/-- Rust `str::contains(pat)`: `pat` occurs as a contiguous substring of
`s`. -/
def strContains (s pat : String) : Bool :=
  s.data.tails.any (fun t => pat.data.isPrefixOf t)

/-- Rust `str::starts_with(pat)`. -/
def strStartsWith (s pat : String) : Bool :=
  pat.data.isPrefixOf s.data

/-- Rust `str::is_empty()`. -/
def strIsEmpty (s : String) : Bool :=
  s.data.isEmpty

/-- Rust `str::split(' ')` on the underlying character list: split at every
single space character, keeping empty pieces. -/
def splitSp : List Char → List (List Char)
  | [] => [[]]
  | c :: rest =>
    if c = ' ' then [] :: splitSp rest
    else
      match splitSp rest with
      | [] => [[c]]
      | h :: t => (c :: h) :: t

/-- Rust `line.split(' ').collect::<Vec<_>>()` (src/main.rs:225). -/
def splitSpace (s : String) : List String :=
  (splitSp s.data).map String.mk

/-- Token `i` of `line.split(' ')`; models `split.get(i)`
(src/main.rs:227,231). -/
def lineTok (line : String) (i : Nat) : Option String :=
  (splitSpace line)[i]?

/-- Number of newline characters in a string. -/
def countNewlines (s : String) : Nat :=
  s.data.count '\n'

/-- One logical shader unit exactly as handed from `parse` to
`compile_shader` (the argument bundle at src/main.rs:236-244 and 270-278):
stage kind, the version most recently recorded at flush time, the
accumulated source text, and the synthesized-line-to-original-index map. -/
structure LogicalUnit : Type where
  kind : ShaderKind
  version : Option String
  source_text : String
  line_map : List Nat
deriving DecidableEq, Repr

/-- The per-shader error enum `CompilerError` (src/main.rs:100-108).
`FileRead` exists in the source but is never constructed on the modelled
paths (`File::open` failures are silently skipped by the `if let`). -/
inductive CompilerError : Type
  | FileRead
  | Compilation (msg : String)
  | UnknownShaderType (token : String)
deriving DecidableEq, Repr

/-- Splitter state: the four mutable locals of `parse`
(src/main.rs:214-217): `curr_shader`, `shader_type`, `line_mapping`,
`version`. -/
structure ParseState : Type where
  curr_shader : String
  shader_type : Option ShaderKind
  line_mapping : List Nat
  version : Option String
deriving DecidableEq, Repr

/-- The initial splitter state (src/main.rs:214-217). -/
def initState : ParseState :=
  { curr_shader := "", shader_type := none, line_mapping := [], version := none }

/-- Abstract outcome of `compile_shader` for one flushed unit: `none` means
the backend compiled it (artifact written), `some d` means `compile_shader`
returned `Err(CompilerError::Compilation(d))` with `d` the already
line-translated diagnostic.  The diagnostic translation itself is modelled
separately by `translate_error`. -/
def Backend : Type := LogicalUnit → Option String

/-- The always-succeeding backend. -/
def B0 : Backend := fun _ => none

/-- Processing of one source line by the body of the `for (idx, line)` loop
in `parse` (src/main.rs:221-264).  Returns the updated state, the list of
units flushed to `compile_shader` and successfully compiled on this line
(empty or a singleton), and the error that aborts the file, if any.  On the
unknown-shader-type path the error is raised before any flush
(src/main.rs:232-234); on a backend failure during a flush the `?` at
src/main.rs:244 aborts before the accumulator reset. -/
def processLine (B : Backend) (st : ParseState) (idx : Nat) (line : String) :
    ParseState × List LogicalUnit × Option CompilerError :=
  if strContains line "//#" then
    match lineTok line 1 with
    | some instruction =>
      if strContains instruction "TYPE" then
        match lineTok line 2 with
        | some token =>
          match parse_shader_kind token with
          | none => (st, [], some (CompilerError.UnknownShaderType token))
          | some new_kind =>
            match st.shader_type with
            | some kind =>
              let u : LogicalUnit :=
                { kind := kind
                  version := st.version
                  source_text := st.curr_shader
                  line_map := st.line_mapping }
              match B u with
              | none =>
                ({ curr_shader := ""
                   shader_type := some new_kind
                   line_mapping := []
                   version := st.version }, [u], none)
              | some d => (st, [], some (CompilerError.Compilation d))
            | none =>
              ({ st with shader_type := some new_kind }, [], none)
        | none => (st, [], none)
      else if strContains instruction "VERSION" &&
          decide (3 ≤ (splitSpace line).length) then
        match lineTok line 2 with
        | some v => ({ st with version := some v }, [], none)
        | none => (st, [], none)
      else (st, [], none)
    | none => (st, [], none)
  else if strIsEmpty st.curr_shader then
    ({ st with curr_shader := line }, [], none)
  else if !strIsEmpty line && !strStartsWith line "//" then
    ({ st with
       curr_shader := st.curr_shader ++ "\n" ++ line
       line_mapping := st.line_mapping ++ [idx] }, [], none)
  else (st, [], none)

/-- The line loop of `parse` (src/main.rs:221-265): fold `processLine` over
the file's lines, numbering them from `idx`, stopping at the first error
(the `?` operators propagate out of the loop). -/
def runLines (B : Backend) :
    List String → Nat → ParseState →
      ParseState × List LogicalUnit × Option CompilerError
  | [], _, st => (st, [], none)
  | line :: rest, idx, st =>
    match processLine B st idx line with
    | (st1, us, some e) => (st1, us, some e)
    | (st1, us, none) =>
      match runLines B rest (idx + 1) st1 with
      | (st2, us2, e2) => (st2, us ++ us2, e2)

/-- The "compile last shader" step of `parse` (src/main.rs:268-279): if a
stage is open, flush one final unit. -/
def finalFlush (B : Backend) (st : ParseState) :
    List LogicalUnit × Option CompilerError :=
  match st.shader_type with
  | some kind =>
    let u : LogicalUnit :=
      { kind := kind
        version := st.version
        source_text := st.curr_shader
        line_map := st.line_mapping }
    match B u with
    | none => ([u], none)
    | some d => ([], some (CompilerError.Compilation d))
  | none => ([], none)

/-- Result of processing one file: the units flushed and compiled, in
order, and the error `parse` returned, if any. -/
structure ParseResult : Type where
  units : List LogicalUnit
  err : Option CompilerError
deriving DecidableEq, Repr

/-- `parse` (src/main.rs:196-281), for a file given as its list of
successfully read lines: run the line loop from the empty state, then flush
the last open unit. -/
def parse (B : Backend) (lines : List String) : ParseResult :=
  match runLines B lines 0 initState with
  | (st, us, none) =>
    match finalFlush B st with
    | (us2, e) => { units := us ++ us2, err := e }
  | (_, us, some e) => { units := us, err := some e }

/-- The per-file loop of `main` (src/main.rs:167-188): each file is parsed;
an `Err` from `parse` is logged (`error!`) and the loop continues with the
next file. -/
def mainLoop (B : Backend) : List (List String) → List ParseResult
  | [] => []
  | f :: rest => parse B f :: mainLoop B rest

/-- The stage kind a line sets, when the line is a well-formed stage marker:
it contains the sentinel `"//#"`, its second whitespace token contains
`"TYPE"`, and its third token is a recognized stage keyword
(src/main.rs:224-249). -/
def markerKind (line : String) : Option ShaderKind :=
  if strContains line "//#" then
    match lineTok line 1 with
    | some instruction =>
      if strContains instruction "TYPE" then
        match lineTok line 2 with
        | some token => parse_shader_kind token
        | none => none
      else none
    | none => none
  else none

/-- Whether a line is a stage marker that initiates a unit. -/
def isStageMarker (line : String) : Bool :=
  (markerKind line).isSome

/-- Number of stage markers in a file. -/
def stageMarkerCount (lines : List String) : Nat :=
  lines.countP isStageMarker

/-- The offending token, when a line is a TYPE directive whose stage
argument is not recognized — the `UnknownShaderType` path
(src/main.rs:232-234). -/
def isBadTypeLine (line : String) : Option String :=
  if strContains line "//#" then
    match lineTok line 1 with
    | some instruction =>
      if strContains instruction "TYPE" then
        match lineTok line 2 with
        | some token =>
          if (parse_shader_kind token).isSome then none else some token
        | none => none
      else none
    | none => none
  else none

/-- The source string actually sent to the backend by `compile_shader`
(src/main.rs:294-298): a `#version` pragma line is prepended when the
unit's version is set. -/
def assemble_source (version : Option String) (curr_shader : String) : String :=
  match version with
  | some v => "#version " ++ v ++ "\n" ++ curr_shader
  | none => curr_shader

/-- Scanner for Rust `str::replace` on character lists: replace each
non-overlapping, leftmost-first occurrence of the pattern `c :: cs` by `r`.
The patterns used by `compile_shader` are always of the form `":<n>:"`, so
the pattern is never empty and is carried split into head and tail. -/
def replaceAux (c : Char) (cs : List Char) (r : List Char) :
    Nat → List Char → List Char
  | _, [] => []
  | 0, s => s
  | fuel + 1, a :: rest =>
    if (c :: cs).isPrefixOf (a :: rest) then
      r ++ replaceAux c cs r fuel (rest.drop cs.length)
    else
      a :: replaceAux c cs r fuel rest

/-- Rust `str::replace(s, pat, r)` for a non-empty pattern; an empty
pattern (never produced here) leaves the string unchanged.  The fuel
argument (recursion on it keeps the scanner structurally recursive) is the
input length, which each scanner step strictly decreases, so it never runs
out. -/
def strReplace (s pat r : String) : String :=
  match pat.data with
  | [] => s
  | c :: cs => String.mk (replaceAux c cs r.data s.data.length s.data)

/-- Value of a decimal digit string (most significant first). -/
def digitsToNat (ds : List Char) : Nat :=
  ds.foldl (fun n c => n * 10 + (c.toNat - 48)) 0

/-- Rust `str::parse::<usize>()` on a digit-only capture: fails on an empty
string and on overflow past `usize::MAX` (the surrounding code turns a
parse failure into a panic, modelled as `none` downstream). -/
def parseUsize (ds : List Char) : Option Nat :=
  if ds.isEmpty then none
  else if digitsToNat ds < 18446744073709551616 then some (digitsToNat ds)
  else none

/-- First capture of the regex `:([0-9]*):` (src/main.rs:193) on the
diagnostic text: the leftmost position holding a colon, a (possibly empty)
digit run, and another colon; returns the digit run.  On a failed attempt
the scan advances one character, as the regex engine does. -/
def regFirstCapture : List Char → Option String
  | [] => none
  | c :: rest =>
    if c = ':' then
      match rest.dropWhile Char.isDigit with
      | ':' :: _ => some (String.mk (rest.takeWhile Char.isDigit))
      | _ => regFirstCapture rest
    else regFirstCapture rest

/-- The `":<n>:"` pattern built by `format!(":{}:", n)`
(src/main.rs:332-334). -/
def cited (n : Nat) : String :=
  ":" ++ Nat.repr n ++ ":"

/-- The diagnostic rewriting closure in `compile_shader`
(src/main.rs:312-341): extract the first `:<digits>:` capture from the
backend error, parse it, look up `line_mapping[old_line - 1]`, and replace
every `":{old_line}:"` by `":{new_line}:"`.  Each panic path (`expect`,
`unwrap_or_else`/`panic!`, including the capture `"0"`, whose `old_line - 1`
underflows or indexes out of range) is modelled as `none`.  Note that the
lookup index is `old_line - 1` whether or not a `#version` line was
prepended by `assemble_source`. -/
def translate_error (line_mapping : List Nat) (err : String) : Option String :=
  match regFirstCapture err.data with
  | none => none
  | some cap =>
    match parseUsize cap.data with
    | none => none
    | some old_line =>
      if old_line = 0 then none
      else
        match line_mapping[old_line - 1]? with
        | none => none
        | some new_line => some (strReplace err (cited old_line) (cited new_line))

/-- The line-translation rule exactly as the spec states it (claim C1),
written from the spec's words for comparison with `translate_error`: with a
version prepended, synthesized line 1 refers to the pragma itself and has
no original-line translation, and line N > 1 maps via `line_map[N-2]`; with
no version, line N maps via `line_map[N-1]`. -/
def claimed_line_translation (version_prepended : Bool) (line_map : List Nat)
    (n : Nat) : Option Nat :=
  if version_prepended then
    if n = 1 then none else line_map[n - 2]?
  else line_map[n - 1]?

/-- A TYPE directive with an unrecognized stage argument raises
`UnknownShaderType` before any flush, leaving the state unused. -/
theorem processLine_bad (B : Backend) (st : ParseState) (idx : Nat)
    {line tok : String} (h : isBadTypeLine line = some tok) :
    processLine B st idx line =
      (st, [], some (CompilerError.UnknownShaderType tok)) := by
  cases hdir : strContains line "//#" with
  | false => simp [isBadTypeLine, hdir] at h
  | true =>
    cases h1 : lineTok line 1 with
    | none => simp [isBadTypeLine, hdir, h1] at h
    | some instruction =>
      cases hty : strContains instruction "TYPE" with
      | false => simp [isBadTypeLine, hdir, h1, hty] at h
      | true =>
        cases h2 : lineTok line 2 with
        | none => simp [isBadTypeLine, hdir, h1, hty, h2] at h
        | some token =>
          cases hpk : parse_shader_kind token with
          | some k => simp [isBadTypeLine, hdir, h1, hty, h2, hpk] at h
          | none =>
            simp [isBadTypeLine, hdir, h1, hty, h2, hpk] at h
            subst h
            simp [processLine, hdir, h1, hty, h2, hpk]

/-- A well-formed stage marker, met while a stage is already open, flushes
the accumulated unit (successfully under `B0`) and opens the new stage;
the version is not reset. -/
theorem processLine_marker_flush (st : ParseState) (idx : Nat)
    {line : String} {k : ShaderKind} (h : markerKind line = some k)
    {kind : ShaderKind} (hst : st.shader_type = some kind) :
    processLine B0 st idx line =
      ({ curr_shader := ""
         shader_type := some k
         line_mapping := []
         version := st.version },
       [{ kind := kind
          version := st.version
          source_text := st.curr_shader
          line_map := st.line_mapping }], none) := by
  cases hdir : strContains line "//#" with
  | false => simp [markerKind, hdir] at h
  | true =>
    cases h1 : lineTok line 1 with
    | none => simp [markerKind, hdir, h1] at h
    | some instruction =>
      cases hty : strContains instruction "TYPE" with
      | false => simp [markerKind, hdir, h1, hty] at h
      | true =>
        cases h2 : lineTok line 2 with
        | none => simp [markerKind, hdir, h1, hty, h2] at h
        | some token =>
          simp only [markerKind, hdir, h1, hty, h2, if_true] at h
          simp [processLine, hdir, h1, hty, h2, h, hst, B0]

/-- A well-formed stage marker met with no stage open only records the new
stage: no flush, and the accumulator keeps any pre-marker content. -/
theorem processLine_marker_first (st : ParseState) (idx : Nat)
    {line : String} {k : ShaderKind} (h : markerKind line = some k)
    (hst : st.shader_type = none) :
    processLine B0 st idx line =
      ({ st with shader_type := some k }, [], none) := by
  cases hdir : strContains line "//#" with
  | false => simp [markerKind, hdir] at h
  | true =>
    cases h1 : lineTok line 1 with
    | none => simp [markerKind, hdir, h1] at h
    | some instruction =>
      cases hty : strContains instruction "TYPE" with
      | false => simp [markerKind, hdir, h1, hty] at h
      | true =>
        cases h2 : lineTok line 2 with
        | none => simp [markerKind, hdir, h1, hty, h2] at h
        | some token =>
          simp only [markerKind, hdir, h1, hty, h2, if_true] at h
          simp [processLine, hdir, h1, hty, h2, h, hst]

/-- Any line that is neither a well-formed stage marker nor a bad TYPE
directive flushes nothing, raises nothing, and leaves the open stage
unchanged under the always-succeeding backend. -/
theorem processLine_neutral (st : ParseState) (idx : Nat) {line : String}
    (hm : markerKind line = none) (hb : isBadTypeLine line = none) :
    ∃ st1 : ParseState,
      processLine B0 st idx line = (st1, [], none) ∧
        st1.shader_type = st.shader_type := by
  cases hdir : strContains line "//#" with
  | false =>
    cases hemp : strIsEmpty st.curr_shader with
    | true =>
      exact ⟨{ st with curr_shader := line },
        by simp [processLine, hdir, hemp], rfl⟩
    | false =>
      cases hline : (!strIsEmpty line && !strStartsWith line "//") with
      | true =>
        refine ⟨{ st with
          curr_shader := st.curr_shader ++ "\n" ++ line
          line_mapping := st.line_mapping ++ [idx] }, ?_, rfl⟩
        simp [processLine, hdir, hemp, hline]
      | false =>
        exact ⟨st, by simp [processLine, hdir, hemp, hline], rfl⟩
  | true =>
    cases h1 : lineTok line 1 with
    | none => exact ⟨st, by simp [processLine, hdir, h1], rfl⟩
    | some instruction =>
      cases hty : strContains instruction "TYPE" with
      | true =>
        cases h2 : lineTok line 2 with
        | none => exact ⟨st, by simp [processLine, hdir, h1, hty, h2], rfl⟩
        | some token =>
          cases hpk : parse_shader_kind token with
          | some k =>
            exfalso
            simp [markerKind, hdir, h1, hty, h2, hpk] at hm
          | none =>
            exfalso
            simp [isBadTypeLine, hdir, h1, hty, h2, hpk] at hb
      | false =>
        cases hv : (strContains instruction "VERSION" &&
            decide (3 ≤ (splitSpace line).length)) with
        | true =>
          cases h2 : lineTok line 2 with
          | some v =>
            exact ⟨{ st with version := some v },
              by simp [processLine, hdir, h1, hty, hv, h2], rfl⟩
          | none => exact ⟨st, by simp [processLine, hdir, h1, hty, hv, h2], rfl⟩
        | false =>
          exact ⟨st, by simp [processLine, hdir, h1, hty, hv], rfl⟩

/-- Every unit flushed by a line carries the version current at flush time
(`version` is passed as-is at src/main.rs:243). -/
theorem processLine_version (B : Backend) (st : ParseState) (idx : Nat)
    (line : String) {u : LogicalUnit}
    (hu : u ∈ (processLine B st idx line).2.1) : u.version = st.version := by
  cases hdir : strContains line "//#" with
  | false =>
    cases hemp : strIsEmpty st.curr_shader with
    | true => simp [processLine, hdir, hemp] at hu
    | false =>
      cases hline : (!strIsEmpty line && !strStartsWith line "//") with
      | true => simp [processLine, hdir, hemp, hline] at hu
      | false => simp [processLine, hdir, hemp, hline] at hu
  | true =>
    cases h1 : lineTok line 1 with
    | none => simp [processLine, hdir, h1] at hu
    | some instruction =>
      cases hty : strContains instruction "TYPE" with
      | false =>
        cases hv : (strContains instruction "VERSION" &&
            decide (3 ≤ (splitSpace line).length)) with
        | true =>
          cases h2 : lineTok line 2 with
          | some v => simp [processLine, hdir, h1, hty, hv, h2] at hu
          | none => simp [processLine, hdir, h1, hty, hv, h2] at hu
        | false => simp [processLine, hdir, h1, hty, hv] at hu
      | true =>
        cases h2 : lineTok line 2 with
        | none => simp [processLine, hdir, h1, hty, h2] at hu
        | some token =>
          cases hpk : parse_shader_kind token with
          | none => simp [processLine, hdir, h1, hty, h2, hpk] at hu
          | some k =>
            cases hst : st.shader_type with
            | none => simp [processLine, hdir, h1, hty, h2, hpk, hst] at hu
            | some kind =>
              cases hB : B { kind := kind
                             version := st.version
                             source_text := st.curr_shader
                             line_map := st.line_mapping } with
              | some d =>
                simp [processLine, hdir, h1, hty, h2, hpk, hst, hB] at hu
              | none =>
                simp [processLine, hdir, h1, hty, h2, hpk, hst, hB] at hu
                rw [hu]

/-- Unfolding of the line loop on a cons cell. -/
theorem runLines_cons (B : Backend) (line : String) (rest : List String)
    (idx : Nat) (st : ParseState) :
    runLines B (line :: rest) idx st =
      match processLine B st idx line with
      | (st1, us, some e) => (st1, us, some e)
      | (st1, us, none) =>
        match runLines B rest (idx + 1) st1 with
        | (st2, us2, e2) => (st2, us ++ us2, e2) := rfl

/-- On a file with no bad TYPE directives, the loop (under the
always-succeeding backend) finishes without error and flushes one unit per
stage marker, except that the marker that opens the first stage (and the
final state's still-open stage) is accounted by the end-of-loop flush:
units so far plus the open-stage indicator grow exactly with the marker
count. -/
theorem runLines_clean (lines : List String) :
    ∀ (idx : Nat) (st : ParseState),
      (∀ l ∈ lines, isBadTypeLine l = none) →
      ∃ st2 us, runLines B0 lines idx st = (st2, us, none) ∧
        us.length + (if st2.shader_type.isSome then 1 else 0) =
          stageMarkerCount lines +
            (if st.shader_type.isSome then 1 else 0) := by
  induction lines with
  | nil =>
    intro idx st _
    exact ⟨st, [], rfl, by simp [stageMarkerCount]⟩
  | cons line rest ih =>
    intro idx st h
    have hline : isBadTypeLine line = none := h line (by simp)
    have hrest : ∀ l ∈ rest, isBadTypeLine l = none :=
      fun l hl => h l (by simp [hl])
    have hcnt : stageMarkerCount (line :: rest) =
        stageMarkerCount rest + if isStageMarker line then 1 else 0 := by
      simp [stageMarkerCount, List.countP_cons]
    cases hmk : markerKind line with
    | some k =>
      have hmark : isStageMarker line = true := by
        simp [isStageMarker, hmk]
      cases hst : st.shader_type with
      | some kind =>
        obtain ⟨st2, us, hrun, hcount⟩ := ih (idx + 1)
          { curr_shader := ""
            shader_type := some k
            line_mapping := []
            version := st.version } hrest
        refine ⟨st2,
          { kind := kind
            version := st.version
            source_text := st.curr_shader
            line_map := st.line_mapping } :: us, ?_, ?_⟩
        · rw [runLines_cons, processLine_marker_flush st idx hmk hst]
          simp only []
          rw [hrun]
          simp
        · simp only [Option.isSome_some, if_true] at hcount
          simp [hcnt, hmark, hst]
          omega
      | none =>
        obtain ⟨st2, us, hrun, hcount⟩ := ih (idx + 1)
          { st with shader_type := some k } hrest
        refine ⟨st2, us, ?_, ?_⟩
        · rw [runLines_cons, processLine_marker_first st idx hmk hst]
          simp only []
          rw [hrun]
          simp
        · simp only [Option.isSome_some, if_true] at hcount
          simp [hcnt, hmark, hst]
          omega
    | none =>
      have hmark : isStageMarker line = false := by
        simp [isStageMarker, hmk]
      obtain ⟨st1, hpl, hty⟩ := processLine_neutral st idx hmk hline
      obtain ⟨st2, us, hrun, hcount⟩ := ih (idx + 1) st1 hrest
      refine ⟨st2, us, ?_, ?_⟩
      · rw [runLines_cons, hpl]
        simp only []
        rw [hrun]
        simp
      · rw [hty] at hcount
        simp [hcnt, hmark]
        omega

/-- If the loop runs a prefix without error and the next line raises an
error, the whole run stops there: the trailing lines are never processed
and only the prefix's units were compiled. -/
theorem runLines_append_error (B : Backend) (pre : List String) :
    ∀ (idx : Nat) (st st1 : ParseState) (us : List LogicalUnit),
      runLines B pre idx st = (st1, us, none) →
      ∀ (line : String) (err : CompilerError) (post : List String)
        (stE : ParseState) (usE : List LogicalUnit),
        processLine B st1 (idx + pre.length) line = (stE, usE, some err) →
        runLines B (pre ++ line :: post) idx st = (stE, us ++ usE, some err) := by
  induction pre with
  | nil =>
    intro idx st st1 us hrun line err post stE usE hpl
    have hst : st1 = st ∧ us = [] := by
      constructor
      · exact congrArg Prod.fst hrun.symm
      · have := congrArg (fun r => r.2.1) hrun
        simpa using this.symm
    obtain ⟨h1, h2⟩ := hst
    subst h1; subst h2
    simp only [List.nil_append, runLines_cons]
    simp only [List.length_nil, Nat.add_zero] at hpl
    rw [hpl]
  | cons p pre ih =>
    intro idx st st1 us hrun line err post stE usE hpl
    rw [runLines_cons] at hrun
    cases hp : processLine B st idx p with
    | mk stA r =>
      cases r with
      | mk usA eA =>
        rw [hp] at hrun
        cases eA with
        | some e => simp at hrun
        | none =>
          cases hr : runLines B pre (idx + 1) stA with
          | mk stB r2 =>
            cases r2 with
            | mk usB eB =>
              simp only [hr] at hrun
              simp only [Prod.mk.injEq] at hrun
              obtain ⟨hB1, hB2, hB3⟩ := hrun
              cases eB with
              | some e => simp at hB3
              | none =>
                subst hB1
                have hpl2 : processLine B stB ((idx + 1) + pre.length) line =
                    (stE, usE, some err) := by
                  have harith : (idx + 1) + pre.length = idx + (p :: pre).length := by
                    simp [List.length_cons]
                    omega
                  rw [harith]
                  exact hpl
                have hmain := ih (idx + 1) stA stB usB hr line err post stE usE hpl2
                simp only [List.cons_append, runLines_cons, hp, hmain]
                simp only [← hB2]
                simp [List.append_assoc]

/-- Newline counting distributes over string concatenation. -/
theorem countNewlines_append (a b : String) :
    countNewlines (a ++ b) = countNewlines a + countNewlines b := by
  simp [countNewlines, String.data_append, List.count_append]

/-- An empty string has no newlines. -/
theorem countNewlines_of_isEmpty {s : String} (h : strIsEmpty s = true) :
    countNewlines s = 0 := by
  simp only [strIsEmpty, List.isEmpty_iff] at h
  simp [countNewlines, h]

/-- One line step preserves the accumulator invariant `line_mapping.length
= countNewlines curr_shader` (for newline-free input lines) and every unit
it flushes satisfies `line_map.length = countNewlines source_text`. -/
theorem processLine_map_inv (B : Backend) (st : ParseState) (idx : Nat)
    (line : String) (hline : countNewlines line = 0)
    (hst : st.line_mapping.length = countNewlines st.curr_shader) :
    (processLine B st idx line).1.line_mapping.length =
      countNewlines (processLine B st idx line).1.curr_shader ∧
    ∀ u ∈ (processLine B st idx line).2.1,
      u.line_map.length = countNewlines u.source_text := by
  cases hdir : strContains line "//#" with
  | false =>
    cases hemp : strIsEmpty st.curr_shader with
    | true =>
      refine ⟨?_, by simp [processLine, hdir, hemp]⟩
      simp only [processLine, hdir, hemp]
      simp only [Bool.false_eq_true, if_false, if_true]
      rw [hst, countNewlines_of_isEmpty hemp, hline]
    | false =>
      cases hline2 : (!strIsEmpty line && !strStartsWith line "//") with
      | true =>
        refine ⟨?_, by simp [processLine, hdir, hemp, hline2]⟩
        simp only [processLine, hdir, hemp, hline2]
        simp only [Bool.false_eq_true, if_false, if_true]
        have hline3 : List.count '\n' line.data = 0 := by
          simpa [countNewlines] using hline
        simp [countNewlines_append, hst, countNewlines, hline3]
      | false =>
        exact ⟨by simp [processLine, hdir, hemp, hline2, hst],
          by simp [processLine, hdir, hemp, hline2]⟩
  | true =>
    cases h1 : lineTok line 1 with
    | none => exact ⟨by simp [processLine, hdir, h1, hst],
        by simp [processLine, hdir, h1]⟩
    | some instruction =>
      cases hty : strContains instruction "TYPE" with
      | false =>
        cases hv : (strContains instruction "VERSION" &&
            decide (3 ≤ (splitSpace line).length)) with
        | true =>
          cases h2 : lineTok line 2 with
          | some v => exact ⟨by simp [processLine, hdir, h1, hty, hv, h2, hst],
              by simp [processLine, hdir, h1, hty, hv, h2]⟩
          | none => exact ⟨by simp [processLine, hdir, h1, hty, hv, h2, hst],
              by simp [processLine, hdir, h1, hty, hv, h2]⟩
        | false =>
          exact ⟨by simp [processLine, hdir, h1, hty, hv, hst],
            by simp [processLine, hdir, h1, hty, hv]⟩
      | true =>
        cases h2 : lineTok line 2 with
        | none => exact ⟨by simp [processLine, hdir, h1, hty, h2, hst],
            by simp [processLine, hdir, h1, hty, h2]⟩
        | some token =>
          cases hpk : parse_shader_kind token with
          | none => exact ⟨by simp [processLine, hdir, h1, hty, h2, hpk, hst],
              by simp [processLine, hdir, h1, hty, h2, hpk]⟩
          | some k =>
            cases hstt : st.shader_type with
            | none => exact ⟨by simp [processLine, hdir, h1, hty, h2, hpk, hstt, hst],
                by simp [processLine, hdir, h1, hty, h2, hpk, hstt]⟩
            | some kind =>
              cases hB : B { kind := kind
                             version := st.version
                             source_text := st.curr_shader
                             line_map := st.line_mapping } with
              | some d =>
                exact ⟨by simp [processLine, hdir, h1, hty, h2, hpk, hstt, hB, hst],
                  by simp [processLine, hdir, h1, hty, h2, hpk, hstt, hB]⟩
              | none =>
                refine ⟨?_, ?_⟩
                · simp [processLine, hdir, h1, hty, h2, hpk, hstt, hB, countNewlines]
                · simp only [processLine, hdir, h1, hty, h2, hpk, hstt, hB]
                  simp
                  exact hst

/-- The end-of-file flush emits a unit satisfying the map-length invariant
whenever the accumulator does. -/
theorem finalFlush_map_inv (B : Backend) (st : ParseState)
    (hst : st.line_mapping.length = countNewlines st.curr_shader) :
    ∀ u ∈ (finalFlush B st).1,
      u.line_map.length = countNewlines u.source_text := by
  cases hstt : st.shader_type with
  | none => simp [finalFlush, hstt]
  | some kind =>
    cases hB : B { kind := kind
                   version := st.version
                   source_text := st.curr_shader
                   line_map := st.line_mapping } with
    | some d => simp [finalFlush, hstt, hB]
    | none =>
      intro u hu
      simp only [finalFlush, hstt, hB, List.mem_singleton] at hu
      rw [hu]
      exact hst

/-- The loop preserves the accumulator invariant and every unit it flushes
satisfies the map-length invariant. -/
theorem runLines_map_inv (B : Backend) (lines : List String) :
    ∀ (idx : Nat) (st : ParseState),
      (∀ l ∈ lines, countNewlines l = 0) →
      st.line_mapping.length = countNewlines st.curr_shader →
      (runLines B lines idx st).1.line_mapping.length =
        countNewlines (runLines B lines idx st).1.curr_shader ∧
      ∀ u ∈ (runLines B lines idx st).2.1,
        u.line_map.length = countNewlines u.source_text := by
  induction lines with
  | nil =>
    intro idx st _ hst
    exact ⟨hst, by simp [runLines]⟩
  | cons line rest ih =>
    intro idx st h hst
    have hline : countNewlines line = 0 := h line (by simp)
    have hrest : ∀ l ∈ rest, countNewlines l = 0 :=
      fun l hl => h l (by simp [hl])
    obtain ⟨hinv1, hunits1⟩ := processLine_map_inv B st idx line hline hst
    cases hp : processLine B st idx line with
    | mk st1 r =>
      cases r with
      | mk us1 e1 =>
        rw [hp] at hinv1 hunits1
        try dsimp only at hinv1 hunits1
        cases e1 with
        | some e =>
          simp only [runLines_cons, hp]
          exact ⟨hinv1, hunits1⟩
        | none =>
          obtain ⟨hinv2, hunits2⟩ := ih (idx + 1) st1 hrest hinv1
          cases hr : runLines B rest (idx + 1) st1 with
          | mk st2 r2 =>
            cases r2 with
            | mk us2 e2 =>
              rw [hr] at hinv2 hunits2
              try dsimp only at hinv2 hunits2
              simp only [runLines_cons, hp, hr]
              refine ⟨hinv2, ?_⟩
              intro u hu
              try dsimp only at hu
              rcases List.mem_append.mp hu with hcase | hcase
              · exact hunits1 u hcase
              · exact hunits2 u hcase

/-- `parse` when the line loop aborts with an error: the error is returned
and only the units compiled before it appear; no final flush happens. -/
theorem parse_of_err {B : Backend} {lines : List String} {st : ParseState}
    {us : List LogicalUnit} {e : CompilerError}
    (hr : runLines B lines 0 initState = (st, us, some e)) :
    parse B lines = { units := us, err := some e } := by
  unfold parse
  rw [hr]

/-- `parse` when the line loop finishes: the final flush contributes its
unit (or its error). -/
theorem parse_of_ok {B : Backend} {lines : List String} {st : ParseState}
    {us : List LogicalUnit}
    (hr : runLines B lines 0 initState = (st, us, none)) :
    parse B lines =
      { units := us ++ (finalFlush B st).1, err := (finalFlush B st).2 } := by
  unfold parse
  rw [hr]

/-- Under the always-succeeding backend the final flush never errors and
emits exactly one unit when a stage is open. -/
theorem finalFlush_B0 (st : ParseState) :
    (finalFlush B0 st).2 = none ∧
      (finalFlush B0 st).1.length =
        (if st.shader_type.isSome then 1 else 0) := by
  cases hstt : st.shader_type with
  | none => simp [finalFlush, hstt]
  | some kind => simp [finalFlush, hstt, B0]

/-- Claim C7: for a unit with `line_map = [5, 7, 8]` and no prepended
version, a backend diagnostic whose first embedded `:<digits>:` capture
cites synthesized line 2 is rewritten by `compile_shader`'s error path to
cite original line 7: the cited number N is replaced by `line_map[N-1]`
(here `[5, 7, 8][1] = 7`). -/
theorem c7_round_trip_translation (err : String)
    (h : regFirstCapture err.data = some "2") :
    translate_error [5, 7, 8] err = some (strReplace err ":2:" ":7:") := by
  unfold translate_error
  rw [h]
  rfl

/-- Witness for C7 at the concrete diagnostic `"shader.glsl:2: error: x"`. -/
theorem c7_round_trip_translation_witness :
    regFirstCapture ("shader.glsl:2: error: x").data = some "2" ∧
    translate_error [5, 7, 8] "shader.glsl:2: error: x" =
      some "shader.glsl:7: error: x" :=
  ⟨by decide,
    (c7_round_trip_translation "shader.glsl:2: error: x" (by decide)).trans
      (by decide)⟩

/-- Claim C1: the code ignores the prepended version line when translating
diagnostics.  `assemble_source` does prepend a `#version` pragma (shifting
every accumulated line down by one), but `compile_shader`'s error path
(`translate_error`) always looks up `line_mapping[N-1]`: at the failing
input (version set, `line_mapping = [5, 7, 8]`, diagnostic citing
synthesized line 2) the code rewrites to line 7 where the spec's rule
(`claimed_line_translation`) demands `line_map[2-2] = 5`, and a diagnostic
citing line 1 — which refers to the pragma itself and should get no
translation — is rewritten through `line_mapping[0]` to line 5. -/
theorem c1_version_shift_ignored :
    assemble_source (some "450") "foo" = "#version 450\nfoo" ∧
    translate_error [5, 7, 8] "a.glsl:2: error: y" =
      some "a.glsl:7: error: y" ∧
    claimed_line_translation true [5, 7, 8] 2 = some 5 ∧
    (5 : Nat) ≠ 7 ∧
    claimed_line_translation true [5, 7, 8] 1 = none ∧
    translate_error [5, 7, 8] "a.glsl:1: error: y" =
      some "a.glsl:5: error: y" := by
  refine ⟨by decide, by decide, by decide, by decide, by decide, by decide⟩

/-- Claim C4 counterexample: the unit produced from
`["//# TYPE VERTEX", "a", "b"]` has `line_map = [2]` of length 1 while its
`source_text = "a\nb"` holds 1 newline, so the claimed invariant
`line_map.length = countNewlines source_text + 1` fails (the first
accumulated line never receives a map entry). -/
theorem c4_invariant_counterexample :
    parse B0 ["//# TYPE VERTEX", "a", "b"] =
      { units := [{ kind := ShaderKind.Vertex
                    version := none
                    source_text := "a\nb"
                    line_map := [2] }]
        err := none } ∧
    ¬ (([2] : List Nat).length = countNewlines "a\nb" + 1) :=
  ⟨by decide, by decide⟩

/-- Claim C4 (amended): every unit the splitter hands to `compile_shader`
satisfies `line_map.length = countNewlines source_text` — without the
claimed `+ 1`.  Holds for any backend, provided the file's lines are
newline-free (as `BufReader::lines` guarantees). -/
theorem c4_line_map_length (B : Backend) (lines : List String)
    (h : ∀ l ∈ lines, countNewlines l = 0) :
    ∀ u ∈ (parse B lines).units,
      u.line_map.length = countNewlines u.source_text := by
  have hinit : initState.line_mapping.length =
      countNewlines initState.curr_shader := rfl
  obtain ⟨hinv, hunits⟩ := runLines_map_inv B lines 0 initState h hinit
  intro u hu
  cases hr : runLines B lines 0 initState with
  | mk st r =>
    cases r with
    | mk us e =>
      rw [hr] at hinv hunits
      try dsimp only at hinv hunits
      cases e with
      | some err =>
        rw [parse_of_err hr] at hu
        exact hunits u hu
      | none =>
        rw [parse_of_ok hr] at hu
        try dsimp only at hu
        rcases List.mem_append.mp hu with hc | hc
        · exact hunits u hc
        · exact finalFlush_map_inv B st hinv u hc

/-- Witness for C4 (amended) on a concrete file. -/
theorem c4_line_map_length_witness :
    (∀ l ∈ (["//# TYPE VERTEX", "a", "b"] : List String),
        countNewlines l = 0) ∧
    ∀ u ∈ (parse B0 ["//# TYPE VERTEX", "a", "b"]).units,
      u.line_map.length = countNewlines u.source_text :=
  ⟨by decide, c4_line_map_length B0 ["//# TYPE VERTEX", "a", "b"] (by decide)⟩

/-- Claim C5 counterexample: in `["foo", "//# TYPE VERTEX", "bar"]` the
line `"foo"` precedes the first stage marker, yet the produced unit's
`source_text` is `"foo\nbar"` — the pre-marker content is carried into the
first unit, not "belonging to no unit" (the accumulator is only reset when
a previously opened unit is flushed, src/main.rs:235-248). -/
theorem c5_premarker_counterexample :
    parse B0 ["foo", "//# TYPE VERTEX", "bar"] =
      { units := [{ kind := ShaderKind.Vertex
                    version := none
                    source_text := "foo\nbar"
                    line_map := [2] }]
        err := none } ∧
    strContains "foo\nbar" "foo" = true :=
  ⟨by decide, by decide⟩

/-- Claim C5 (amended): for a file with no unrecognized stage keywords the
splitter never errors and produces exactly `stageMarkerCount lines`
logical units — in particular "exactly N or N-1" as claimed, the final
flush always occurring; a file with no stage markers produces zero units.
(Content before the first marker is carried into the first unit.) -/
theorem c5_unit_count (lines : List String)
    (h : ∀ l ∈ lines, isBadTypeLine l = none) :
    (parse B0 lines).err = none ∧
    (parse B0 lines).units.length = stageMarkerCount lines ∧
    ((parse B0 lines).units.length = stageMarkerCount lines ∨
      (parse B0 lines).units.length = stageMarkerCount lines - 1) ∧
    (stageMarkerCount lines = 0 → (parse B0 lines).units = []) := by
  obtain ⟨st2, us, hrun, hcount⟩ := runLines_clean lines 0 initState h
  have hp := parse_of_ok hrun
  obtain ⟨hff2, hff1⟩ := finalFlush_B0 st2
  have hzero : (if initState.shader_type.isSome then 1 else 0) = 0 := rfl
  rw [hzero] at hcount
  have hlen : (parse B0 lines).units.length = stageMarkerCount lines := by
    rw [hp]
    simp only [List.length_append, hff1]
    cases hsome : st2.shader_type.isSome with
    | true =>
      simp only [hsome, if_true] at hcount
      simp only [hsome, if_true]
      omega
    | false =>
      simp only [hsome, Bool.false_eq_true, if_false] at hcount
      simp only [hsome, Bool.false_eq_true, if_false]
      omega
  refine ⟨?_, hlen, Or.inl hlen, ?_⟩
  · rw [hp]
    exact hff2
  · intro h0
    rw [h0] at hlen
    exact List.length_eq_zero.mp hlen

/-- Witness for C5 (amended): a two-marker file yields two units. -/
theorem c5_unit_count_witness :
    (∀ l ∈ (["//# TYPE VERTEX", "a", "//# TYPE FRAGMENT", "b"] : List String),
        isBadTypeLine l = none) ∧
    (parse B0 ["//# TYPE VERTEX", "a", "//# TYPE FRAGMENT", "b"]).units.length =
      stageMarkerCount ["//# TYPE VERTEX", "a", "//# TYPE FRAGMENT", "b"] :=
  ⟨by decide,
    (c5_unit_count ["//# TYPE VERTEX", "a", "//# TYPE FRAGMENT", "b"]
      (by decide)).2.1⟩

/-- A directive line whose second token contains `VERSION` but not `TYPE`
and which has a third token records that token as the current version and
changes nothing else. -/
theorem processLine_version_set (B : Backend) (st : ParseState) (idx : Nat)
    {line instruction v : String} (hdir : strContains line "//#" = true)
    (h1 : lineTok line 1 = some instruction)
    (hty : strContains instruction "TYPE" = false)
    (hver : strContains instruction "VERSION" = true)
    (h2 : lineTok line 2 = some v) :
    processLine B st idx line = ({ st with version := some v }, [], none) := by
  have hlen : 2 < (splitSpace line).length :=
    (List.getElem?_eq_some.mp h2).1
  have hguard : (strContains instruction "VERSION" &&
      decide (3 ≤ (splitSpace line).length)) = true := by
    rw [hver]
    simp
    omega
  simp [processLine, hdir, h1, hty, hguard, h2]

/-- A directive line never contributes to the accumulator or the line map:
the resulting state's accumulator and map are each either untouched or
reset by a flush, and any flushed unit carries only pre-existing content. -/
theorem processLine_directive_untouched (B : Backend) (st : ParseState)
    (idx : Nat) (line : String) (hdir : strContains line "//#" = true) :
    ((processLine B st idx line).1.curr_shader = st.curr_shader ∨
      (processLine B st idx line).1.curr_shader = "") ∧
    ((processLine B st idx line).1.line_mapping = st.line_mapping ∨
      (processLine B st idx line).1.line_mapping = []) ∧
    ∀ u ∈ (processLine B st idx line).2.1,
      u.source_text = st.curr_shader ∧ u.line_map = st.line_mapping := by
  cases h1 : lineTok line 1 with
  | none => simp [processLine, hdir, h1]
  | some instruction =>
    cases hty : strContains instruction "TYPE" with
    | false =>
      cases hv : (strContains instruction "VERSION" &&
          decide (3 ≤ (splitSpace line).length)) with
      | true =>
        cases h2 : lineTok line 2 with
        | some v => simp [processLine, hdir, h1, hty, hv, h2]
        | none => simp [processLine, hdir, h1, hty, hv, h2]
      | false => simp [processLine, hdir, h1, hty, hv]
    | true =>
      cases h2 : lineTok line 2 with
      | none => simp [processLine, hdir, h1, hty, h2]
      | some token =>
        cases hpk : parse_shader_kind token with
        | none => simp [processLine, hdir, h1, hty, h2, hpk]
        | some k =>
          cases hstt : st.shader_type with
          | none => simp [processLine, hdir, h1, hty, h2, hpk, hstt]
          | some kind =>
            cases hB : B { kind := kind
                           version := st.version
                           source_text := st.curr_shader
                           line_map := st.line_mapping } with
            | some d => simp [processLine, hdir, h1, hty, h2, hpk, hstt, hB]
            | none => simp [processLine, hdir, h1, hty, h2, hpk, hstt, hB]

/-- Claim C2 counterexample: in `["//# TYPE VERTEX", "a",
"//# TYPE FRAGMENT", "b", "//# TYPE COMPUTE"]` the file aborts with
`UnknownShaderType "COMPUTE"`, but the vertex unit had already been flushed
and compiled when the `TYPE FRAGMENT` marker was met — refuting "no
logical unit from that file is compiled". -/
theorem c2_earlier_unit_compiled_counterexample :
    parse B0 ["//# TYPE VERTEX", "a", "//# TYPE FRAGMENT", "b",
        "//# TYPE COMPUTE"] =
      { units := [{ kind := ShaderKind.Vertex
                    version := none
                    source_text := "a"
                    line_map := [] }]
        err := some (CompilerError.UnknownShaderType "COMPUTE") } ∧
    ([{ kind := ShaderKind.Vertex
        version := none
        source_text := "a"
        line_map := [] }] : List LogicalUnit) ≠ [] :=
  ⟨by decide, by decide⟩

/-- Claim C2 (amended): a TYPE directive with an unrecognized stage
argument aborts the whole file with `UnknownShaderType(token)`: lines after
it are never processed and no unit at or after it is flushed, while units
flushed by earlier markers have already been compiled (they are exactly the
loop's output on the clean prefix). -/
theorem c2_unknown_type_aborts (pre : List String) (line : String)
    (tok : String) (post : List String)
    (hpre : ∀ l ∈ pre, isBadTypeLine l = none)
    (hline : isBadTypeLine line = some tok) :
    parse B0 (pre ++ line :: post) =
      { units := (runLines B0 pre 0 initState).2.1
        err := some (CompilerError.UnknownShaderType tok) } := by
  obtain ⟨st1, us, hrun, _⟩ := runLines_clean pre 0 initState hpre
  have hpl := processLine_bad B0 st1 (0 + pre.length) hline
  have hmain := runLines_append_error B0 pre 0 initState st1 us hrun line
    (CompilerError.UnknownShaderType tok) post st1 [] hpl
  rw [parse_of_err hmain, hrun]
  simp

/-- Witness for C2 (amended): a clean prefix followed by `TYPE COMPUTE`. -/
theorem c2_unknown_type_aborts_witness :
    parse B0 (["//# TYPE VERTEX", "a"] ++ "//# TYPE COMPUTE" :: []) =
      { units := (runLines B0 ["//# TYPE VERTEX", "a"] 0 initState).2.1
        err := some (CompilerError.UnknownShaderType "COMPUTE") } :=
  c2_unknown_type_aborts ["//# TYPE VERTEX", "a"] "//# TYPE COMPUTE"
    "COMPUTE" [] (by decide) (by decide)

/-- Claim C3 counterexample: with a backend that fails on the vertex unit,
the two-unit file aborts at the first flush — the fragment unit (which the
same file yields under a succeeding backend, second conjunct) is never
compiled, so processing does not continue with the file's next unit. -/
theorem c3_unit_error_aborts_file_counterexample :
    parse (fun u => if u.kind = ShaderKind.Vertex then some "diag" else none)
      ["//# TYPE VERTEX", "a", "//# TYPE FRAGMENT", "b"] =
      { units := [], err := some (CompilerError.Compilation "diag") } ∧
    (parse B0 ["//# TYPE VERTEX", "a", "//# TYPE FRAGMENT", "b"]).units.map
        (fun u => u.kind) = [ShaderKind.Vertex, ShaderKind.Fragment] :=
  ⟨by decide, by decide⟩

/-- Claim C3 (amended): recovery happens at the file boundary: the batch
driver logs a failed file's error and continues, so each file's outcome is
exactly `parse` of that file, unaffected by errors in any other file;
within one file an error aborts that file's remaining units (see the
counterexample). -/
theorem c3_per_file_isolation (B : Backend) (files : List (List String)) :
    (mainLoop B files).length = files.length ∧
    ∀ i : Nat, (mainLoop B files)[i]? = (files[i]?).map (parse B) := by
  induction files with
  | nil => exact ⟨rfl, fun i => by simp [mainLoop]⟩
  | cons f rest ih =>
    obtain ⟨ihl, ihg⟩ := ih
    refine ⟨by simp [mainLoop, ihl], ?_⟩
    intro i
    cases i with
    | zero => simp [mainLoop]
    | succ n =>
      simp only [mainLoop, List.getElem?_cons_succ]
      exact ihg n

/-- Claim C6 counterexample: for `VERSION A, TYPE VERTEX, x, VERSION B,
TYPE FRAGMENT, y` the first unit is flushed only when `TYPE FRAGMENT` is
met — after `VERSION B` has overwritten the version — so both units carry
`B`, not `A` then `B` as the claim's example states. -/
theorem c6_version_override_counterexample :
    (parse B0 ["//# VERSION A", "//# TYPE VERTEX", "x", "//# VERSION B",
        "//# TYPE FRAGMENT", "y"]).units.map (fun u => u.version) =
      [some "B", some "B"] ∧
    ([some "B", some "B"] : List (Option String)) ≠ [some "A", some "B"] :=
  ⟨by decide, by decide⟩

/-- Claim C6 (amended): each flushed unit carries the version current at
flush time (first conjunct), so the version persists across stage switches
(`VERSION A, TYPE VERTEX, TYPE FRAGMENT` yields two units with `A`), while
in the override scenario `VERSION B` precedes the flush of unit 1, so both
units carry `B`. -/
theorem c6_version_at_flush_time :
    (∀ (B : Backend) (st : ParseState) (idx : Nat) (line : String)
        (u : LogicalUnit), u ∈ (processLine B st idx line).2.1 →
          u.version = st.version) ∧
    (parse B0 ["//# VERSION A", "//# TYPE VERTEX", "x",
        "//# TYPE FRAGMENT", "y"]).units.map (fun u => u.version) =
      [some "A", some "A"] ∧
    (parse B0 ["//# VERSION A", "//# TYPE VERTEX", "x", "//# VERSION B",
        "//# TYPE FRAGMENT", "y"]).units.map (fun u => u.version) =
      [some "B", some "B"] :=
  ⟨fun B st idx line u hu => processLine_version B st idx line hu,
    by decide, by decide⟩

/-- Witness for C6 (amended): a concrete flush (stage switch at a
`TYPE FRAGMENT` marker) yields a unit carrying the flush-time version. -/
theorem c6_version_at_flush_time_witness :
    ({ kind := ShaderKind.Vertex
       version := some "B"
       source_text := "x"
       line_map := [] } : LogicalUnit).version = some "B" :=
  c6_version_at_flush_time.1 B0
    { curr_shader := "x"
      shader_type := some ShaderKind.Vertex
      line_mapping := []
      version := some "B" } 4 "//# TYPE FRAGMENT"
    { kind := ShaderKind.Vertex
      version := some "B"
      source_text := "x"
      line_map := [] } (by decide)

/-- Claim C8 counterexample: with lines `["//# TYPE VERTEX", "", "x"]` the
empty line does not become the unit's first accumulated line: assigning the
empty string leaves the accumulator empty, so `"x"` becomes the first line
instead and the unit is `("x", [])` — not `("\nx", [2])` as it would be had
the blank line taken the first slot with `"x"` appended after it. -/
theorem c8_blank_first_line_counterexample :
    parse B0 ["//# TYPE VERTEX", "", "x"] =
      { units := [{ kind := ShaderKind.Vertex
                    version := none
                    source_text := "x"
                    line_map := [] }]
        err := none } ∧
    ("x", ([] : List Nat)) ≠ ("\nx", [2]) :=
  ⟨by decide, by decide⟩

/-- Claim C8 (amended): when the accumulator is empty the next
non-directive line is assigned to it unconditionally — so a non-empty line
(comment or whitespace-only included) becomes the unit's first accumulated
line, with no `line_map` entry, while assigning an empty line leaves the
accumulator empty; when the accumulator is non-empty a line is appended
(with a newline separator and one `line_map` entry) exactly when it is
non-empty and does not start with `"//"`, and a dropped line changes
nothing. -/
theorem c8_first_line_quirk (B : Backend) (st : ParseState) (idx : Nat)
    (line : String) (hdir : strContains line "//#" = false) :
    (strIsEmpty st.curr_shader = true →
      processLine B st idx line =
        ({ st with curr_shader := line }, [], none)) ∧
    (strIsEmpty st.curr_shader = false →
      (strIsEmpty line = false → strStartsWith line "//" = false →
        processLine B st idx line =
          ({ st with
             curr_shader := st.curr_shader ++ "\n" ++ line
             line_mapping := st.line_mapping ++ [idx] }, [], none)) ∧
      ((strIsEmpty line = true ∨ strStartsWith line "//" = true) →
        processLine B st idx line = (st, [], none))) := by
  refine ⟨?_, ?_⟩
  · intro hemp
    simp [processLine, hdir, hemp]
  · intro hemp
    refine ⟨?_, ?_⟩
    · intro hne hnc
      simp [processLine, hdir, hemp, hne, hnc]
    · intro hcase
      rcases hcase with hc | hc
      · simp [processLine, hdir, hemp, hc]
      · simp [processLine, hdir, hemp, hc]

/-- Witness for C8 (amended): assigning an empty line leaves the
accumulator empty; a comment line does become a first accumulated line. -/
theorem c8_first_line_quirk_witness :
    processLine B0 initState 1 "" =
      ({ initState with curr_shader := "" }, [], none) ∧
    processLine B0 initState 1 "// c" =
      ({ initState with curr_shader := "// c" }, [], none) :=
  ⟨(c8_first_line_quirk B0 initState 1 "" (by decide)).1 (by decide),
    (c8_first_line_quirk B0 initState 1 "// c" (by decide)).1 (by decide)⟩

/-- Claim C9: a directive line whose instruction token contains `TYPE` but
which has no stage-argument token is silently ignored: no error, no flush,
and the state (stage, accumulator, line map, version) is returned
unchanged. -/
theorem c9_type_without_argument (B : Backend) (st : ParseState) (idx : Nat)
    (line instruction : String) (hdir : strContains line "//#" = true)
    (h1 : lineTok line 1 = some instruction)
    (hty : strContains instruction "TYPE" = true)
    (h2 : lineTok line 2 = none) :
    processLine B st idx line = (st, [], none) := by
  simp [processLine, hdir, h1, hty, h2]

/-- Witness for C9 at the literal line `"//# TYPE"`. -/
theorem c9_type_without_argument_witness :
    processLine B0 initState 0 "//# TYPE" = (initState, [], none) :=
  c9_type_without_argument B0 initState 0 "//# TYPE" "TYPE" (by decide)
    (by decide) (by decide) (by decide)

/-- Claim C10: any line containing the sentinel `"//#"` anywhere is handled
as a directive and never contributes to any unit's `source_text` or
`line_map` (the accumulator and map are each left untouched or reset by a
flush, and a flushed unit carries only pre-existing content), even when the
instruction token is unrecognized; and instruction matching is by substring
containment: a second token containing `"TYPE"` whose third token is a
recognized stage keyword opens that stage, and a second token containing
`"VERSION"` (but not `"TYPE"`, which is tested first) with a third token
records that token as the version. -/
theorem c10_directive_by_substring (st : ParseState) (idx : Nat)
    (line : String) (hdir : strContains line "//#" = true) :
    (((processLine B0 st idx line).1.curr_shader = st.curr_shader ∨
        (processLine B0 st idx line).1.curr_shader = "") ∧
      ((processLine B0 st idx line).1.line_mapping = st.line_mapping ∨
        (processLine B0 st idx line).1.line_mapping = []) ∧
      ∀ u ∈ (processLine B0 st idx line).2.1,
        u.source_text = st.curr_shader ∧ u.line_map = st.line_mapping) ∧
    (∀ (instruction token : String) (k : ShaderKind),
      lineTok line 1 = some instruction →
      strContains instruction "TYPE" = true →
      lineTok line 2 = some token →
      parse_shader_kind token = some k →
      (processLine B0 st idx line).1.shader_type = some k) ∧
    (∀ (instruction v : String),
      lineTok line 1 = some instruction →
      strContains instruction "TYPE" = false →
      strContains instruction "VERSION" = true →
      lineTok line 2 = some v →
      (processLine B0 st idx line).1.version = some v ∧
      (processLine B0 st idx line).1.shader_type = st.shader_type) := by
  refine ⟨processLine_directive_untouched B0 st idx line hdir, ?_, ?_⟩
  · intro instruction token k h1 hty h2 hpk
    have hmk : markerKind line = some k := by
      simp [markerKind, hdir, h1, hty, h2, hpk]
    cases hstt : st.shader_type with
    | some kind => rw [processLine_marker_flush st idx hmk hstt]
    | none => rw [processLine_marker_first st idx hmk hstt]
  · intro instruction v h1 hty hver h2
    rw [processLine_version_set B0 st idx hdir h1 hty hver h2]
    exact ⟨rfl, rfl⟩

/-- Witness for C10: `"//# MYTYPE VERTEX"` opens the vertex stage because
`"MYTYPE"` contains `"TYPE"`, and `"//# THEVERSION 450"` records version
`"450"` because `"THEVERSION"` contains `"VERSION"`. -/
theorem c10_directive_by_substring_witness :
    (processLine B0 initState 0 "//# MYTYPE VERTEX").1.shader_type =
      some ShaderKind.Vertex ∧
    (processLine B0 initState 0 "//# THEVERSION 450").1.version =
      some "450" :=
  ⟨(c10_directive_by_substring initState 0 "//# MYTYPE VERTEX"
      (by decide)).2.1 "MYTYPE" "VERTEX" ShaderKind.Vertex (by decide)
      (by decide) (by decide) (by decide),
    ((c10_directive_by_substring initState 0 "//# THEVERSION 450"
      (by decide)).2.2 "THEVERSION" "450" (by decide) (by decide)
      (by decide) (by decide)).1⟩
